import Mathlib

/-!
Shallow embedding of `openstackclient/volume/v3/volume_group.py`.

The `take_action` of each CLI command class becomes a pure Lean function over an
oracle `VolumeClient` (the external Remote Client: every remote operation is a
response function supplied as data).  Executing a command yields an `Outcome`:
the `Except` result (a raised `CommandError`, a propagated remote error, or the
returned value) together with the exact ordered trace of remote calls issued.
Claims about version gating, call arguments and call order become theorems
about the result and the trace.
-/

/-- A two-component API version token (`cinderclient.api_versions.APIVersion`),
compared lexicographically on (major, minor). -/
structure APIVersion where
  major : Nat
  minor : Nat
deriving DecidableEq, Repr

/-- Lexicographic strict order on versions, as `APIVersion.__lt__`. -/
def APIVersion.lt (a b : APIVersion) : Bool :=
  a.major < b.major || (a.major == b.major && a.minor < b.minor)

/-- An attribute value carried by a remote JSON-like object: a scalar string or
a list (e.g. `volume_types`, `volumes`, `replication_targets`). -/
inductive Value where
  | vstr : String → Value
  | vlist : List Value → Value

/-- A remote resource object: a bag of named attributes. -/
structure VolumeGroup where
  attrs : List (String × Value)

/-- Python `getattr(group, field, default)`: first binding of the field. -/
def VolumeGroup.getattr (g : VolumeGroup) (field : String) : Option Value :=
  g.attrs.lookup field

/-- The `id` attribute of a remote object, as the string the code passes to
subsequent remote calls (`group.id`). Remote objects always carry an `id`. -/
def VolumeGroup.id (g : VolumeGroup) : String :=
  match g.attrs.lookup "id" with
  | some (Value.vstr s) => s
  | _ => ""

/-- Python `group.replication_targets = targets`: attach/overwrite an
attribute (lookup sees the new binding first). -/
def VolumeGroup.setattr (g : VolumeGroup) (field : String) (v : Value) : VolumeGroup :=
  ⟨(field, v) :: g.attrs⟩

/-- Errors a command can surface: a `CommandError` raised by the version gate,
or an error propagated from the Remote Client (resolution failure, transport). -/
inductive Err where
  | commandError (msg : String)
  | remoteError (msg : String)
deriving DecidableEq, Repr

/-- One remote call, with the exact arguments the code passes.  `kwargs`-style
dictionaries are lists of present key/value pairs: an absent key is absent. -/
inductive Call where
  | findResource (collection : String) (name_or_id : String)
  | create (group_type_id : String) (volume_type_ids : String)
      (name : Option String) (description : Option String)
      (availability_zone : Option String)
  | get (id : String)
  | delete (id : String) (delete_volumes : Bool)
  | update (id : String) (kwargs : List (String × String))
  | listGroups (search_opts : List (String × Bool))
  | show (id : String) (kwargs : List (String × Bool))
  | listReplicationTargets (id : String)
  | enableReplication (id : String)
  | disableReplication (id : String)
  | failoverReplication (id : String) (allow_attached_volume : Bool)
      (secondary_backend_id : Option String)
deriving DecidableEq, Repr

/-- Outcome of running a command body: the result and the ordered trace of
remote calls issued before returning or raising. -/
structure Outcome (α : Type) where
  result : Except Err α
  trace : List Call

/-- Return a value, issuing no call. -/
def Outcome.pure {α : Type} (a : α) : Outcome α := ⟨Except.ok a, []⟩

/-- Sequencing: a raised error aborts the rest; traces concatenate. -/
def Outcome.bind {α β : Type} (x : Outcome α) (f : α → Outcome β) : Outcome β :=
  match x with
  | ⟨Except.error e, t⟩ => ⟨Except.error e, t⟩
  | ⟨Except.ok a, t⟩ =>
    match f a with
    | ⟨r, t2⟩ => ⟨r, t ++ t2⟩

/-- `raise exceptions.CommandError(msg)`: no call is issued. -/
def commandError {α : Type} (msg : String) : Outcome α :=
  ⟨Except.error (Err.commandError msg), []⟩

/-- Issue one remote call; the response of the oracle decides success or a
propagated remote error.  The call is traced either way. -/
def remoteCall {α : Type} (c : Call) (resp : Except String α) : Outcome α :=
  ⟨match resp with
    | Except.ok a => Except.ok a
    | Except.error m => Except.error (Err.remoteError m),
   [c]⟩

/-- `osc_lib.utils.find_resource(collection, name_or_id)`: one resolution call
against the named collection; failure (not-found, ambiguity) propagates. -/
def find_resource (collection : String) (find : String → Except String VolumeGroup)
    (name_or_id : String) : Outcome VolumeGroup :=
  remoteCall (Call.findResource collection name_or_id) (find name_or_id)

/-- The Remote Client oracle (`volume_client`): the negotiated `api_version`
plus a response function per remote operation the module invokes. -/
structure VolumeClient where
  api_version : APIVersion
  group_types_find : String → Except String VolumeGroup
  volume_types_find : String → Except String VolumeGroup
  groups_find : String → Except String VolumeGroup
  groups_create : String → String → Option String → Option String →
      Option String → Except String VolumeGroup
  groups_get : String → Except String VolumeGroup
  groups_delete : String → Bool → Except String Unit
  groups_update : String → List (String × String) → Except String VolumeGroup
  groups_list : List (String × Bool) → Except String (List VolumeGroup)
  groups_show : String → List (String × Bool) → Except String VolumeGroup
  groups_list_replication_targets : String → Except String Value
  groups_enable_replication : String → Except String Unit
  groups_disable_replication : String → Except String Unit
  groups_failover_replication : String → Bool → Option String →
      Except String Unit

/-- Modelled from the spec: `osc_lib.utils.get_item_properties` (the external
Response Formatter helper, not part of this repository) projects an object
onto the given fields; a missing attribute renders as the empty placeholder,
never an error, and values (lists included) pass through unflattened. -/
def get_item_properties (item : VolumeGroup) (fields : List String) : List Value :=
  fields.map (fun field => (item.getattr field).getD (Value.vstr ""))

/-- The 11 projected columns of `_format_group`. -/
def format_group_columns : List String :=
  ["id", "status", "name", "description", "group_type", "volume_types",
   "availability_zone", "created_at", "volumes", "group_snapshot_id",
   "source_group_id"]

/-- The 11 column headers of `_format_group`. -/
def format_group_headers : List String :=
  ["ID", "Status", "Name", "Description", "Group Type", "Volume Types",
   "Availability Zone", "Created At", "Volumes", "Group Snapshot ID",
   "Source Group ID"]

/-- `_format_group(group)`: headers plus the fixed 11-column projection. -/
def _format_group (group : VolumeGroup) : List String × List Value :=
  (format_group_headers, get_item_properties group format_group_columns)

/-- Parsed arguments of `volume group create`. -/
structure CreateArgs where
  volume_group_type : String
  volume_types : List String
  name : Option String
  description : Option String
  availability_zone : Option String
deriving DecidableEq, Repr

/-- The loop in `CreateVolumeGroup.take_action` resolving each volume type
in order. -/
def resolve_volume_types (client : VolumeClient) :
    List String → Outcome (List VolumeGroup)
  | [] => Outcome.pure []
  | t :: ts =>
    Outcome.bind (find_resource "volume_types" client.volume_types_find t)
      (fun g =>
        Outcome.bind (resolve_volume_types client ts)
          (fun gs => Outcome.pure (g :: gs)))

/-- `CreateVolumeGroup.take_action`. -/
def CreateVolumeGroup.take_action (client : VolumeClient) (args : CreateArgs) :
    Outcome (List String × List Value) :=
  if APIVersion.lt client.api_version ⟨3, 13⟩ then
    commandError ("--os-volume-api-version 3.13 or greater is required to " ++
      "support the \x27volume group create\x27 command")
  else
    Outcome.bind
      (find_resource "group_types" client.group_types_find
        args.volume_group_type)
      (fun volume_group_type =>
        Outcome.bind (resolve_volume_types client args.volume_types)
          (fun volume_types =>
            Outcome.bind
              (remoteCall
                (Call.create volume_group_type.id
                  (String.intercalate "," (volume_types.map VolumeGroup.id))
                  args.name args.description args.availability_zone)
                (client.groups_create volume_group_type.id
                  (String.intercalate "," (volume_types.map VolumeGroup.id))
                  args.name args.description args.availability_zone))
              (fun group =>
                Outcome.bind
                  (remoteCall (Call.get group.id)
                    (client.groups_get group.id))
                  (fun group => Outcome.pure (_format_group group)))))

/-- Parsed arguments of `volume group delete` (`--force` defaults to false). -/
structure DeleteArgs where
  group : String
  force : Bool
deriving DecidableEq, Repr

/-- `DeleteVolumeGroup.take_action`. -/
def DeleteVolumeGroup.take_action (client : VolumeClient) (args : DeleteArgs) :
    Outcome Unit :=
  if APIVersion.lt client.api_version ⟨3, 13⟩ then
    commandError ("--os-volume-api-version 3.13 or greater is required to " ++
      "support the \x27volume group delete\x27 command")
  else
    Outcome.bind (find_resource "groups" client.groups_find args.group)
      (fun group =>
        remoteCall (Call.delete group.id args.force)
          (client.groups_delete group.id args.force))

/-- Parsed arguments of `volume group set`.  `enable_replication` is the
tri-state destination shared by `--enable-replication` (sets `some true`) and
`--disable-replication` (sets `some false`); its parser default is `none`. -/
structure SetArgs where
  group : String
  name : Option String
  description : Option String
  enable_replication : Option Bool
deriving DecidableEq, Repr

/-- The `kwargs` dictionary built by `SetVolumeGroup.take_action`: only the
supplied attributes are present. -/
def set_kwargs (args : SetArgs) : List (String × String) :=
  (match args.name with
   | some n => [("name", n)]
   | none => []) ++
  (match args.description with
   | some d => [("description", d)]
   | none => [])

/-- `SetVolumeGroup.take_action`. -/
def SetVolumeGroup.take_action (client : VolumeClient) (args : SetArgs) :
    Outcome (List String × List Value) :=
  if APIVersion.lt client.api_version ⟨3, 13⟩ then
    commandError ("--os-volume-api-version 3.13 or greater is required to " ++
      "support the \x27volume group set\x27 command")
  else
    Outcome.bind (find_resource "groups" client.groups_find args.group)
      (fun group =>
        Outcome.bind
          (match args.enable_replication with
           | none => Outcome.pure ()
           | some b =>
             if APIVersion.lt client.api_version ⟨3, 38⟩ then
               commandError ("--os-volume-api-version 3.38 or greater is " ++
                 "required to support the \x27--enable-replication\x27 or " ++
                 "\x27--disable-replication\x27 options")
             else if b then
               remoteCall (Call.enableReplication group.id)
                 (client.groups_enable_replication group.id)
             else
               remoteCall (Call.disableReplication group.id)
                 (client.groups_disable_replication group.id))
          (fun _ =>
            if (set_kwargs args).isEmpty then
              Outcome.pure (_format_group group)
            else
              Outcome.bind
                (remoteCall (Call.update group.id (set_kwargs args))
                  (client.groups_update group.id (set_kwargs args)))
                (fun group => Outcome.pure (_format_group group))))

/-- Parsed arguments of `volume group list`. -/
structure ListArgs where
  all_projects : Bool
deriving DecidableEq, Repr

/-- Modelled from the spec: the parser default of `--all-projects`, i.e.
`utils.env` on ALL_PROJECTS with default False (external `osc_lib` helper)
projected to the truthiness the flag value carries: a set, non-empty
`ALL_PROJECTS` environment variable is truthy, otherwise the default is
false. -/
def all_projects_default (env_ALL_PROJECTS : Option String) : Bool :=
  match env_ALL_PROJECTS with
  | some s => !(s == "")
  | none => false

/-- The parsed value of `--all-projects`: true when the flag is given
(`store_true`), otherwise the environment-derived default. -/
def parse_all_projects (flag_given : Bool) (env_ALL_PROJECTS : Option String) :
    Bool :=
  if flag_given then true else all_projects_default env_ALL_PROJECTS

/-- The 3 projected columns of `ListVolumeGroup.take_action`. -/
def list_columns : List String := ["id", "status", "name"]

/-- The 3 column headers of `ListVolumeGroup.take_action`. -/
def list_column_headers : List String := ["ID", "Status", "Name"]

/-- `ListVolumeGroup.take_action`. -/
def ListVolumeGroup.take_action (client : VolumeClient) (args : ListArgs) :
    Outcome (List String × List (List Value)) :=
  if APIVersion.lt client.api_version ⟨3, 13⟩ then
    commandError ("--os-volume-api-version 3.13 or greater is required to " ++
      "support the \x27volume group list\x27 command")
  else
    Outcome.bind
      (remoteCall (Call.listGroups [("all_tenants", args.all_projects)])
        (client.groups_list [("all_tenants", args.all_projects)]))
      (fun groups =>
        Outcome.pure
          (list_column_headers,
           groups.map (fun a => get_item_properties a list_columns)))

/-- Parsed arguments of `volume group show`.  Both flags are tri-state:
`--volumes`/`--no-volumes` share `show_volumes` (default `none`), and
`--replication-targets`/`--no-replication-targets` share
`show_replication_targets` (default `none`). -/
structure ShowArgs where
  group : String
  show_volumes : Option Bool
  show_replication_targets : Option Bool
deriving DecidableEq, Repr

/-- The `kwargs` dictionary built by `ShowVolumeGroup.take_action`: only
`list_volume` may appear, and only when `--volumes`/`--no-volumes` was given. -/
def show_kwargs (args : ShowArgs) : List (String × Bool) :=
  match args.show_volumes with
  | some b => [("list_volume", b)]
  | none => []

/-- `ShowVolumeGroup.take_action`. -/
def ShowVolumeGroup.take_action (client : VolumeClient) (args : ShowArgs) :
    Outcome (List String × List Value) :=
  if APIVersion.lt client.api_version ⟨3, 13⟩ then
    commandError ("--os-volume-api-version 3.13 or greater is required to " ++
      "support the \x27volume group show\x27 command")
  else
    Outcome.bind
      (match args.show_volumes with
       | none => Outcome.pure ()
       | some _ =>
         if APIVersion.lt client.api_version ⟨3, 25⟩ then
           commandError ("--os-volume-api-version 3.25 or greater is " ++
             "required to support the \x27--(no-)volumes\x27 option")
         else
           Outcome.pure ())
      (fun _ =>
        Outcome.bind
          (match args.show_replication_targets with
           | none => Outcome.pure ()
           | some _ =>
             if APIVersion.lt client.api_version ⟨3, 38⟩ then
               commandError ("--os-volume-api-version 3.38 or greater is " ++
                 "required to support the " ++
                 "\x27--(no-)replication-targets\x27 option")
             else
               Outcome.pure ())
          (fun _ =>
            Outcome.bind (find_resource "groups" client.groups_find args.group)
              (fun group =>
                Outcome.bind
                  (remoteCall (Call.show group.id (show_kwargs args))
                    (client.groups_show group.id (show_kwargs args)))
                  (fun group =>
                    Outcome.bind
                      (if args.show_replication_targets == some true then
                        Outcome.bind
                          (remoteCall (Call.listReplicationTargets group.id)
                            (client.groups_list_replication_targets group.id))
                          (fun replication_targets =>
                            Outcome.pure
                              (group.setattr "replication_targets"
                                replication_targets))
                      else
                        Outcome.pure group)
                      (fun group => Outcome.pure (_format_group group))))))

/-- Parsed arguments of `volume group failover`.  `allow_attached_volume` is a
plain boolean shared by `--allow-attached-volume` (sets true) and
`--disallow-attached-volume` (sets false); both declare default false. -/
structure FailoverArgs where
  group : String
  allow_attached_volume : Bool
  secondary_backend_id : Option String
deriving DecidableEq, Repr

/-- `FailoverVolumeGroup.take_action`. -/
def FailoverVolumeGroup.take_action (client : VolumeClient)
    (args : FailoverArgs) : Outcome Unit :=
  if APIVersion.lt client.api_version ⟨3, 38⟩ then
    commandError ("--os-volume-api-version 3.38 or greater is required to " ++
      "support the \x27volume group failover\x27 command")
  else
    Outcome.bind (find_resource "groups" client.groups_find args.group)
      (fun group =>
        remoteCall
          (Call.failoverReplication group.id args.allow_attached_volume
            args.secondary_backend_id)
          (client.groups_failover_replication group.id
            args.allow_attached_volume args.secondary_backend_id))

/-! Helper lemmas about the embedding. -/

theorem Outcome.bind_err {α β : Type} (e : Err) (t : List Call)
    (f : α → Outcome β) :
    Outcome.bind ⟨Except.error e, t⟩ f = ⟨Except.error e, t⟩ := rfl

theorem Outcome.bind_ok {α β : Type} (a : α) (t : List Call)
    (f : α → Outcome β) :
    Outcome.bind ⟨Except.ok a, t⟩ f = ⟨(f a).result, t ++ (f a).trace⟩ := rfl

theorem APIVersion.lt_13_of_lt_38_false (v : APIVersion)
    (h : APIVersion.lt v ⟨3, 38⟩ = false) : APIVersion.lt v ⟨3, 13⟩ = false := by
  simp [APIVersion.lt] at h ⊢
  omega

theorem APIVersion.lt_25_of_lt_38_false (v : APIVersion)
    (h : APIVersion.lt v ⟨3, 38⟩ = false) : APIVersion.lt v ⟨3, 25⟩ = false := by
  simp [APIVersion.lt] at h ⊢
  omega

theorem APIVersion.lt_38_of_lt_13_true (v : APIVersion)
    (h : APIVersion.lt v ⟨3, 13⟩ = true) : APIVersion.lt v ⟨3, 38⟩ = true := by
  simp [APIVersion.lt] at h ⊢
  omega

/-- A sample remote resource for concrete instantiations. -/
def sampleGroup : VolumeGroup :=
  ⟨[("id", Value.vstr "gid-1"), ("status", Value.vstr "available"),
    ("name", Value.vstr "grp"),
    ("volume_types", Value.vlist [Value.vstr "vt1-id"])]⟩

/-- A sample Remote Client oracle at a chosen negotiated version, answering
every operation successfully. -/
def sampleClient (v : APIVersion) : VolumeClient where
  api_version := v
  group_types_find := fun _ => Except.ok ⟨[("id", Value.vstr "gt1-id")]⟩
  volume_types_find := fun s => Except.ok ⟨[("id", Value.vstr (s ++ "-id"))]⟩
  groups_find := fun _ => Except.ok sampleGroup
  groups_create := fun _ _ _ _ _ => Except.ok ⟨[("id", Value.vstr "new-id")]⟩
  groups_get := fun i =>
    Except.ok ⟨[("id", Value.vstr i), ("status", Value.vstr "creating")]⟩
  groups_delete := fun _ _ => Except.ok ()
  groups_update := fun i kwargs =>
    Except.ok ⟨[("id", Value.vstr i)] ++
      kwargs.map (fun p => (p.1, Value.vstr p.2))⟩
  groups_list := fun _ => Except.ok [sampleGroup]
  groups_show := fun i _ =>
    Except.ok ⟨[("id", Value.vstr i), ("status", Value.vstr "available")]⟩
  groups_list_replication_targets := fun _ =>
    Except.ok (Value.vlist [Value.vstr "backend1"])
  groups_enable_replication := fun _ => Except.ok ()
  groups_disable_replication := fun _ => Except.ok ()
  groups_failover_replication := fun _ _ _ => Except.ok ()

/-- Sample parsed arguments, one per command. -/
def sampleCreateArgs : CreateArgs :=
  ⟨"gt1", ["vt1", "vt2"], some "nm", none, none⟩

def sampleDeleteArgs : DeleteArgs := ⟨"grp", true⟩

def sampleSetArgs : SetArgs := ⟨"grp", some "nm", none, none⟩

def sampleListArgs : ListArgs := ⟨true⟩

def sampleShowArgs : ShowArgs := ⟨"grp", none, some true⟩

def sampleFailoverArgs : FailoverArgs := ⟨"grp", false, some "be1"⟩

/-- C1: with a negotiated version below 3.13, each of create, delete, set,
list and show raises the `CommandError` naming the command and the required
version 3.13 and issues no remote call (empty trace); with a version below
3.38, failover raises the `CommandError` naming it and 3.38, likewise without
any remote call. -/
theorem claim_C1_version_gate_blocks_all_commands (client : VolumeClient)
    (cargs : CreateArgs) (dargs : DeleteArgs) (sargs : SetArgs)
    (largs : ListArgs) (shargs : ShowArgs) (fargs : FailoverArgs) :
    (APIVersion.lt client.api_version ⟨3, 13⟩ = true →
      CreateVolumeGroup.take_action client cargs =
        commandError ("--os-volume-api-version 3.13 or greater is required " ++
          "to support the \x27volume group create\x27 command") ∧
      DeleteVolumeGroup.take_action client dargs =
        commandError ("--os-volume-api-version 3.13 or greater is required " ++
          "to support the \x27volume group delete\x27 command") ∧
      SetVolumeGroup.take_action client sargs =
        commandError ("--os-volume-api-version 3.13 or greater is required " ++
          "to support the \x27volume group set\x27 command") ∧
      ListVolumeGroup.take_action client largs =
        commandError ("--os-volume-api-version 3.13 or greater is required " ++
          "to support the \x27volume group list\x27 command") ∧
      ShowVolumeGroup.take_action client shargs =
        commandError ("--os-volume-api-version 3.13 or greater is required " ++
          "to support the \x27volume group show\x27 command")) ∧
    (APIVersion.lt client.api_version ⟨3, 38⟩ = true →
      FailoverVolumeGroup.take_action client fargs =
        commandError ("--os-volume-api-version 3.38 or greater is required " ++
          "to support the \x27volume group failover\x27 command")) := by
  constructor
  · intro h
    refine ⟨?_, ?_, ?_, ?_, ?_⟩ <;>
      simp [CreateVolumeGroup.take_action, DeleteVolumeGroup.take_action,
        SetVolumeGroup.take_action, ListVolumeGroup.take_action,
        ShowVolumeGroup.take_action, h]
  · intro h
    simp [FailoverVolumeGroup.take_action, h]

/-- C1 witness: at concrete version 3.0 all six commands fail with the version
error and have an empty remote-call trace. -/
theorem claim_C1_witness :
    (CreateVolumeGroup.take_action (sampleClient ⟨3, 0⟩)
        sampleCreateArgs).trace = [] ∧
    (DeleteVolumeGroup.take_action (sampleClient ⟨3, 0⟩)
        sampleDeleteArgs).trace = [] ∧
    (SetVolumeGroup.take_action (sampleClient ⟨3, 0⟩) sampleSetArgs).trace =
      [] ∧
    (ListVolumeGroup.take_action (sampleClient ⟨3, 0⟩) sampleListArgs).trace =
      [] ∧
    (ShowVolumeGroup.take_action (sampleClient ⟨3, 0⟩) sampleShowArgs).trace =
      [] ∧
    (FailoverVolumeGroup.take_action (sampleClient ⟨3, 0⟩)
        sampleFailoverArgs).trace = [] := by
  have h := claim_C1_version_gate_blocks_all_commands (sampleClient ⟨3, 0⟩)
    sampleCreateArgs sampleDeleteArgs sampleSetArgs sampleListArgs
    sampleShowArgs sampleFailoverArgs
  have h13 := h.1 (by decide)
  have h38 := h.2 (by decide)
  refine ⟨?_, ?_, ?_, ?_, ?_, ?_⟩
  · rw [h13.1]; rfl
  · rw [h13.2.1]; rfl
  · rw [h13.2.2.1]; rfl
  · rw [h13.2.2.2.1]; rfl
  · rw [h13.2.2.2.2]; rfl
  · rw [h38]; rfl

theorem resolve_volume_types_trace_of_ok (client : VolumeClient) :
    ∀ (ts : List String) (gs : List VolumeGroup),
    (resolve_volume_types client ts).result = Except.ok gs →
    (resolve_volume_types client ts).trace =
      ts.map (fun t => Call.findResource "volume_types" t) := by
  intro ts
  induction ts with
  | nil => intro gs _; rfl
  | cons t ts ih =>
    intro gs h
    cases hf : client.volume_types_find t with
    | error m =>
      exfalso
      simp [resolve_volume_types, find_resource, remoteCall, hf,
        Outcome.bind] at h
    | ok g =>
      cases hr : resolve_volume_types client ts with
      | mk r tr =>
        cases r with
        | error e =>
          exfalso
          simp [resolve_volume_types, find_resource, remoteCall, hf, hr,
            Outcome.bind] at h
        | ok gs2 =>
          have htr : tr = ts.map (fun t => Call.findResource "volume_types" t)
              := by
            have h2 := ih gs2 (by rw [hr])
            rw [hr] at h2
            exact h2
          simp [resolve_volume_types, find_resource, remoteCall, hf, hr,
            Outcome.bind, Outcome.pure, htr]

theorem resolve_volume_types_eq_of_ok (client : VolumeClient)
    (ts : List String) (gs : List VolumeGroup)
    (h : (resolve_volume_types client ts).result = Except.ok gs) :
    resolve_volume_types client ts =
      ⟨Except.ok gs, ts.map (fun t => Call.findResource "volume_types" t)⟩ := by
  have htr := resolve_volume_types_trace_of_ok client ts gs h
  cases hr : resolve_volume_types client ts with
  | mk r tr =>
    rw [hr] at h htr
    simp at h htr
    simp [h, htr]

/-- C2: at version 3.13 or greater, create resolves the group type, resolves
each volume type in the order given, calls create with the resolved group-type
ID, the volume-type IDs joined into one comma-delimited string in that order,
and the optional name, description and availability zone, then re-fetches the
group by the returned ID and formats the re-fetched group. -/
theorem claim_C2_create_resolves_joins_and_refetches (client : VolumeClient)
    (args : CreateArgs) (gt : VolumeGroup) (vts : List VolumeGroup)
    (created fetched : VolumeGroup)
    (hv : APIVersion.lt client.api_version ⟨3, 13⟩ = false)
    (hgt : client.group_types_find args.volume_group_type = Except.ok gt)
    (hvt : (resolve_volume_types client args.volume_types).result =
      Except.ok vts)
    (hcr : client.groups_create gt.id
      (String.intercalate "," (vts.map VolumeGroup.id)) args.name
      args.description args.availability_zone = Except.ok created)
    (hget : client.groups_get created.id = Except.ok fetched) :
    CreateVolumeGroup.take_action client args =
      ⟨Except.ok (_format_group fetched),
       Call.findResource "group_types" args.volume_group_type ::
       (args.volume_types.map (fun t => Call.findResource "volume_types" t) ++
        [Call.create gt.id (String.intercalate "," (vts.map VolumeGroup.id))
           args.name args.description args.availability_zone,
         Call.get created.id])⟩ := by
  have hres := resolve_volume_types_eq_of_ok client args.volume_types vts hvt
  simp [CreateVolumeGroup.take_action, hv, find_resource, remoteCall, hgt,
    hres, hcr, hget, Outcome.bind, Outcome.pure]

/-- C2 witness: a concrete create at version 3.50 with group type `gt1` and
volume types `[vt1, vt2]` issues exactly the resolution calls, the create call
with `"vt1-id,vt2-id"`, and the re-fetch by the returned ID. -/
theorem claim_C2_witness :
    CreateVolumeGroup.take_action (sampleClient ⟨3, 50⟩) sampleCreateArgs =
      ⟨Except.ok (_format_group
          ⟨[("id", Value.vstr "new-id"), ("status", Value.vstr "creating")]⟩),
       [Call.findResource "group_types" "gt1",
        Call.findResource "volume_types" "vt1",
        Call.findResource "volume_types" "vt2",
        Call.create "gt1-id" "vt1-id,vt2-id" (some "nm") none none,
        Call.get "new-id"]⟩ := by
  have h := claim_C2_create_resolves_joins_and_refetches (sampleClient ⟨3, 50⟩)
    sampleCreateArgs ⟨[("id", Value.vstr "gt1-id")]⟩
    [⟨[("id", Value.vstr "vt1-id")]⟩, ⟨[("id", Value.vstr "vt2-id")]⟩]
    ⟨[("id", Value.vstr "new-id")]⟩
    ⟨[("id", Value.vstr "new-id"), ("status", Value.vstr "creating")]⟩
    rfl rfl rfl rfl rfl
  rw [h]
  rfl

/-- C6: at version 3.13 or greater, delete resolves the group and issues
exactly one delete call carrying `delete_volumes` equal to the parsed
`--force` flag; on success the command returns with exactly those two calls
traced. -/
theorem claim_C6_delete_passes_force (client : VolumeClient)
    (args : DeleteArgs) (g : VolumeGroup)
    (hv : APIVersion.lt client.api_version ⟨3, 13⟩ = false)
    (hfind : client.groups_find args.group = Except.ok g) :
    (DeleteVolumeGroup.take_action client args).trace =
      [Call.findResource "groups" args.group, Call.delete g.id args.force] ∧
    (client.groups_delete g.id args.force = Except.ok () →
      DeleteVolumeGroup.take_action client args =
        ⟨Except.ok (),
         [Call.findResource "groups" args.group,
          Call.delete g.id args.force]⟩) := by
  constructor
  · cases hd : client.groups_delete g.id args.force <;>
      simp [DeleteVolumeGroup.take_action, hv, find_resource, remoteCall,
        hfind, hd, Outcome.bind]
  · intro hd
    simp [DeleteVolumeGroup.take_action, hv, find_resource, remoteCall,
      hfind, hd, Outcome.bind]

/-- C6 witness: concrete deletes with and without `--force` issue the delete
call with `delete_volumes` true and false respectively. -/
theorem claim_C6_witness :
    (DeleteVolumeGroup.take_action (sampleClient ⟨3, 13⟩) ⟨"grp", true⟩).trace =
      [Call.findResource "groups" "grp", Call.delete "gid-1" true] ∧
    (DeleteVolumeGroup.take_action (sampleClient ⟨3, 13⟩)
        ⟨"grp", false⟩).trace =
      [Call.findResource "groups" "grp", Call.delete "gid-1" false] := by
  have h1 := claim_C6_delete_passes_force (sampleClient ⟨3, 13⟩) ⟨"grp", true⟩
    sampleGroup rfl rfl
  have h2 := claim_C6_delete_passes_force (sampleClient ⟨3, 13⟩) ⟨"grp", false⟩
    sampleGroup rfl rfl
  exact ⟨h1.1, h2.1⟩

/-- C7: at version 3.38 or greater, failover resolves the group and issues
the failover call carrying `allow_attached_volume` equal to the parsed boolean
flag and `secondary_backend_id` equal to the supplied optional string; on
success exactly those two calls are traced. -/
theorem claim_C7_failover_passes_flags (client : VolumeClient)
    (args : FailoverArgs) (g : VolumeGroup)
    (hv : APIVersion.lt client.api_version ⟨3, 38⟩ = false)
    (hfind : client.groups_find args.group = Except.ok g) :
    (FailoverVolumeGroup.take_action client args).trace =
      [Call.findResource "groups" args.group,
       Call.failoverReplication g.id args.allow_attached_volume
         args.secondary_backend_id] ∧
    (client.groups_failover_replication g.id args.allow_attached_volume
        args.secondary_backend_id = Except.ok () →
      FailoverVolumeGroup.take_action client args =
        ⟨Except.ok (),
         [Call.findResource "groups" args.group,
          Call.failoverReplication g.id args.allow_attached_volume
            args.secondary_backend_id]⟩) := by
  constructor
  · cases hd : client.groups_failover_replication g.id
        args.allow_attached_volume args.secondary_backend_id <;>
      simp [FailoverVolumeGroup.take_action, hv, find_resource, remoteCall,
        hfind, hd, Outcome.bind]
  · intro hd
    simp [FailoverVolumeGroup.take_action, hv, find_resource, remoteCall,
      hfind, hd, Outcome.bind]

/-- C7 witness: a concrete failover at version 3.38 with only
`--secondary-backend-id be1` (so `allow_attached_volume` keeps its parser
default false) issues the failover call with `allow_attached_volume = false`
and `secondary_backend_id = "be1"`. -/
theorem claim_C7_witness :
    FailoverVolumeGroup.take_action (sampleClient ⟨3, 38⟩)
        sampleFailoverArgs =
      ⟨Except.ok (),
       [Call.findResource "groups" "grp",
        Call.failoverReplication "gid-1" false (some "be1")]⟩ := by
  have h := claim_C7_failover_passes_flags (sampleClient ⟨3, 38⟩)
    sampleFailoverArgs sampleGroup rfl rfl
  exact h.2 rfl

theorem set_kwargs_isEmpty_iff (args : SetArgs) :
    (set_kwargs args).isEmpty = true ↔
      args.name = none ∧ args.description = none := by
  cases hn : args.name <;> cases hd : args.description <;>
    simp [set_kwargs, hn, hd]

/-- C3: update is called if and only if `--name` or `--description` was
supplied, and its payload `set_kwargs args` holds exactly the supplied fields
(an absent field is never sent); with neither supplied and no replication
flag, the command formats the originally resolved group, with no update call
and no re-fetch traced. -/
theorem claim_C3_set_update_iff_fields_supplied (client : VolumeClient)
    (args : SetArgs) (g g2 : VolumeGroup)
    (hv : APIVersion.lt client.api_version ⟨3, 13⟩ = false)
    (hrepl : args.enable_replication = none)
    (hfind : client.groups_find args.group = Except.ok g) :
    (args.name = none ∧ args.description = none →
      SetVolumeGroup.take_action client args =
        ⟨Except.ok (_format_group g), [Call.findResource "groups"
          args.group]⟩) ∧
    (¬(args.name = none ∧ args.description = none) →
      client.groups_update g.id (set_kwargs args) = Except.ok g2 →
      SetVolumeGroup.take_action client args =
        ⟨Except.ok (_format_group g2),
         [Call.findResource "groups" args.group,
          Call.update g.id (set_kwargs args)]⟩) := by
  constructor
  · intro h
    have he : (set_kwargs args).isEmpty = true :=
      (set_kwargs_isEmpty_iff args).mpr h
    simp [SetVolumeGroup.take_action, hv, hrepl, find_resource, remoteCall,
      hfind, Outcome.bind, Outcome.pure, he]
  · intro hs hupd
    have he : (set_kwargs args).isEmpty = false := by
      cases hk : (set_kwargs args).isEmpty with
      | true => exact absurd ((set_kwargs_isEmpty_iff args).mp hk) hs
      | false => rfl
    simp [SetVolumeGroup.take_action, hv, hrepl, find_resource, remoteCall,
      hfind, Outcome.bind, Outcome.pure, he, hupd]

/-- C3 witness: concretely, set with neither field returns the resolved group
with only the resolution call traced, and set with `--name nm` issues update
with the payload holding exactly the name. -/
theorem claim_C3_witness :
    SetVolumeGroup.take_action (sampleClient ⟨3, 13⟩)
        ⟨"grp", none, none, none⟩ =
      ⟨Except.ok (_format_group sampleGroup),
       [Call.findResource "groups" "grp"]⟩ ∧
    SetVolumeGroup.take_action (sampleClient ⟨3, 13⟩) sampleSetArgs =
      ⟨Except.ok (_format_group
          ⟨[("id", Value.vstr "gid-1"), ("name", Value.vstr "nm")]⟩),
       [Call.findResource "groups" "grp",
        Call.update "gid-1" [("name", "nm")]]⟩ := by
  constructor
  · have h := claim_C3_set_update_iff_fields_supplied (sampleClient ⟨3, 13⟩)
      ⟨"grp", none, none, none⟩ sampleGroup sampleGroup rfl rfl rfl
    exact h.1 ⟨rfl, rfl⟩
  · have h := claim_C3_set_update_iff_fields_supplied (sampleClient ⟨3, 13⟩)
      sampleSetArgs sampleGroup
      ⟨[("id", Value.vstr "gid-1"), ("name", Value.vstr "nm")]⟩ rfl rfl rfl
    have h2 := h.2 (by simp [sampleSetArgs]) rfl
    rw [h2]
    rfl

/-- C4: with a replication flag explicitly given, set below version 3.38
raises the `CommandError` naming the flags and 3.38 after the resolution call
but before any replication call (the trace holds only the resolution); at
3.38 or greater the second traced call is `enable_replication` when the flag
is true and `disable_replication` when it is false, before any attribute
update. -/
theorem claim_C4_set_replication_gate_and_calls (client : VolumeClient)
    (args : SetArgs) (g : VolumeGroup) (b : Bool)
    (hv13 : APIVersion.lt client.api_version ⟨3, 13⟩ = false)
    (hflag : args.enable_replication = some b)
    (hfind : client.groups_find args.group = Except.ok g) :
    (APIVersion.lt client.api_version ⟨3, 38⟩ = true →
      SetVolumeGroup.take_action client args =
        ⟨Except.error (Err.commandError
           ("--os-volume-api-version 3.38 or greater is " ++
            "required to support the \x27--enable-replication\x27 or " ++
            "\x27--disable-replication\x27 options")),
         [Call.findResource "groups" args.group]⟩) ∧
    (APIVersion.lt client.api_version ⟨3, 38⟩ = false →
      (SetVolumeGroup.take_action client args).trace.take 2 =
        [Call.findResource "groups" args.group,
         if b then Call.enableReplication g.id
         else Call.disableReplication g.id]) := by
  constructor
  · intro h38
    simp [SetVolumeGroup.take_action, hv13, hflag, hfind, find_resource,
      remoteCall, Outcome.bind, h38, commandError]
  · intro h38
    cases b with
    | true =>
      cases hr : client.groups_enable_replication g.id with
      | error m =>
        simp [SetVolumeGroup.take_action, hv13, hflag, hfind, find_resource,
          remoteCall, Outcome.bind, Outcome.pure, h38, hr]
      | ok u =>
        cases hk : (set_kwargs args).isEmpty with
        | true =>
          simp [SetVolumeGroup.take_action, hv13, hflag, hfind, find_resource,
            remoteCall, Outcome.bind, Outcome.pure, h38, hr, hk]
        | false =>
          cases hu : client.groups_update g.id (set_kwargs args) with
          | error m =>
            simp [SetVolumeGroup.take_action, hv13, hflag, hfind,
              find_resource, remoteCall, Outcome.bind, Outcome.pure, h38, hr,
              hk, hu]
          | ok g2 =>
            simp [SetVolumeGroup.take_action, hv13, hflag, hfind,
              find_resource, remoteCall, Outcome.bind, Outcome.pure, h38, hr,
              hk, hu]
    | false =>
      cases hr : client.groups_disable_replication g.id with
      | error m =>
        simp [SetVolumeGroup.take_action, hv13, hflag, hfind, find_resource,
          remoteCall, Outcome.bind, Outcome.pure, h38, hr]
      | ok u =>
        cases hk : (set_kwargs args).isEmpty with
        | true =>
          simp [SetVolumeGroup.take_action, hv13, hflag, hfind, find_resource,
            remoteCall, Outcome.bind, Outcome.pure, h38, hr, hk]
        | false =>
          cases hu : client.groups_update g.id (set_kwargs args) with
          | error m =>
            simp [SetVolumeGroup.take_action, hv13, hflag, hfind,
              find_resource, remoteCall, Outcome.bind, Outcome.pure, h38, hr,
              hk, hu]
          | ok g2 =>
            simp [SetVolumeGroup.take_action, hv13, hflag, hfind,
              find_resource, remoteCall, Outcome.bind, Outcome.pure, h38, hr,
              hk, hu]

/-- C4 witness: concretely, `set --enable-replication` at version 3.20 fails
with the 3.38 error after only the resolution call, and at 3.38 the second
traced call is `enable_replication` (respectively `disable_replication` for
`--disable-replication`). -/
theorem claim_C4_witness :
    SetVolumeGroup.take_action (sampleClient ⟨3, 20⟩)
        ⟨"grp", none, none, some true⟩ =
      ⟨Except.error (Err.commandError
         ("--os-volume-api-version 3.38 or greater is " ++
          "required to support the \x27--enable-replication\x27 or " ++
          "\x27--disable-replication\x27 options")),
       [Call.findResource "groups" "grp"]⟩ ∧
    (SetVolumeGroup.take_action (sampleClient ⟨3, 38⟩)
        ⟨"grp", none, none, some true⟩).trace.take 2 =
      [Call.findResource "groups" "grp", Call.enableReplication "gid-1"] ∧
    (SetVolumeGroup.take_action (sampleClient ⟨3, 38⟩)
        ⟨"grp", none, none, some false⟩).trace.take 2 =
      [Call.findResource "groups" "grp", Call.disableReplication "gid-1"] := by
  refine ⟨?_, ?_, ?_⟩
  · have h := claim_C4_set_replication_gate_and_calls (sampleClient ⟨3, 20⟩)
      ⟨"grp", none, none, some true⟩ sampleGroup true rfl rfl rfl
    exact h.1 rfl
  · have h := claim_C4_set_replication_gate_and_calls (sampleClient ⟨3, 38⟩)
      ⟨"grp", none, none, some true⟩ sampleGroup true rfl rfl rfl
    have h2 := h.2 rfl
    rw [h2]
    rfl
  · have h := claim_C4_set_replication_gate_and_calls (sampleClient ⟨3, 38⟩)
      ⟨"grp", none, none, some false⟩ sampleGroup false rfl rfl rfl
    have h2 := h.2 rfl
    rw [h2]
    rfl

/-- C5: at version 3.38 or greater (hence past every flag gate), show passes
to the primary show call only the kwargs `show_kwargs args`, which by
construction carry at most `list_volume` (from the `show_volumes` flag) and
never the replication-targets outcome; the follow-up
`list_replication_targets` call is issued if and only if
`show_replication_targets` is explicitly true, and its result is attached to
the shown group as a transient `replication_targets` attribute before
formatting. -/
theorem claim_C5_show_replication_targets_follow_up (client : VolumeClient)
    (args : ShowArgs) (g g2 : VolumeGroup) (rt : Value)
    (hv : APIVersion.lt client.api_version ⟨3, 38⟩ = false)
    (hfind : client.groups_find args.group = Except.ok g)
    (hshow : client.groups_show g.id (show_kwargs args) = Except.ok g2) :
    (args.show_replication_targets ≠ some true →
      ShowVolumeGroup.take_action client args =
        ⟨Except.ok (_format_group g2),
         [Call.findResource "groups" args.group,
          Call.show g.id (show_kwargs args)]⟩) ∧
    (args.show_replication_targets = some true →
      client.groups_list_replication_targets g2.id = Except.ok rt →
      ShowVolumeGroup.take_action client args =
        ⟨Except.ok (_format_group (g2.setattr "replication_targets" rt)),
         [Call.findResource "groups" args.group,
          Call.show g.id (show_kwargs args),
          Call.listReplicationTargets g2.id]⟩) := by
  have h13 := APIVersion.lt_13_of_lt_38_false client.api_version hv
  have h25 := APIVersion.lt_25_of_lt_38_false client.api_version hv
  constructor
  · intro hne
    have hb : args.show_replication_targets = none ∨
        args.show_replication_targets = some false := by
      cases hsrt : args.show_replication_targets with
      | none => exact Or.inl rfl
      | some b =>
        cases b with
        | true => exact absurd hsrt hne
        | false => exact Or.inr rfl
    rcases hb with hb | hb <;> cases hsv : args.show_volumes <;>
      simp [ShowVolumeGroup.take_action, h13, h25, hv, hb, hsv, find_resource,
        remoteCall, hfind, hshow, Outcome.bind, Outcome.pure]
  · intro hst hrt
    cases hsv : args.show_volumes <;>
      simp [ShowVolumeGroup.take_action, h13, h25, hv, hst, hsv, find_resource,
        remoteCall, hfind, hshow, hrt, Outcome.bind, Outcome.pure]

/-- C5 witness: concretely at version 3.38, `--replication-targets` adds
exactly one follow-up call and attaches its result before formatting, while
`--volumes` without `--replication-targets` passes `list_volume` to the show
call and issues no follow-up. -/
theorem claim_C5_witness :
    ShowVolumeGroup.take_action (sampleClient ⟨3, 38⟩) sampleShowArgs =
      ⟨Except.ok (_format_group
          (VolumeGroup.setattr
            ⟨[("id", Value.vstr "gid-1"), ("status", Value.vstr "available")]⟩
            "replication_targets" (Value.vlist [Value.vstr "backend1"]))),
       [Call.findResource "groups" "grp", Call.show "gid-1" [],
        Call.listReplicationTargets "gid-1"]⟩ ∧
    ShowVolumeGroup.take_action (sampleClient ⟨3, 38⟩)
        ⟨"grp", some true, none⟩ =
      ⟨Except.ok (_format_group
          ⟨[("id", Value.vstr "gid-1"), ("status", Value.vstr "available")]⟩),
       [Call.findResource "groups" "grp",
        Call.show "gid-1" [("list_volume", true)]]⟩ := by
  constructor
  · have h := claim_C5_show_replication_targets_follow_up
      (sampleClient ⟨3, 38⟩) sampleShowArgs sampleGroup
      ⟨[("id", Value.vstr "gid-1"), ("status", Value.vstr "available")]⟩
      (Value.vlist [Value.vstr "backend1"]) rfl rfl rfl
    have h2 := h.2 rfl rfl
    rw [h2]
    rfl
  · have h := claim_C5_show_replication_targets_follow_up
      (sampleClient ⟨3, 38⟩) ⟨"grp", some true, none⟩ sampleGroup
      ⟨[("id", Value.vstr "gid-1"), ("status", Value.vstr "available")]⟩
      (Value.vlist [Value.vstr "backend1"]) rfl rfl rfl
    have h2 := h.1 (by simp)
    rw [h2]
    rfl

/-- C8: at version 3.13 or greater, list issues exactly one list call whose
search options hold `all_tenants` equal to the parsed `--all-projects` value
(itself defaulting from the `ALL_PROJECTS` environment variable via
`parse_all_projects`), and projects every returned group onto exactly the 3
columns ID, Status, Name, whatever other attributes the objects carry. -/
theorem claim_C8_list_all_tenants_and_3_columns (client : VolumeClient)
    (flag_given : Bool) (env : Option String) (gs : List VolumeGroup)
    (hv : APIVersion.lt client.api_version ⟨3, 13⟩ = false)
    (hl : client.groups_list
      [("all_tenants", parse_all_projects flag_given env)] = Except.ok gs) :
    ListVolumeGroup.take_action client ⟨parse_all_projects flag_given env⟩ =
      ⟨Except.ok (list_column_headers,
         gs.map (fun a => get_item_properties a list_columns)),
       [Call.listGroups
          [("all_tenants", parse_all_projects flag_given env)]]⟩ ∧
    list_column_headers = ["ID", "Status", "Name"] ∧
    (∀ a : VolumeGroup, (get_item_properties a list_columns).length = 3) := by
  refine ⟨?_, rfl, ?_⟩
  · simp [ListVolumeGroup.take_action, hv, remoteCall, hl, Outcome.bind,
      Outcome.pure]
  · intro a
    simp [get_item_properties, list_columns]

/-- C8 witness: with the flag absent and `ALL_PROJECTS=1` in the environment,
the list call carries `all_tenants = true` and the sample group (which has 4
attributes) is projected onto exactly its 3 ID/Status/Name values. -/
theorem claim_C8_witness :
    ListVolumeGroup.take_action (sampleClient ⟨3, 13⟩)
        ⟨parse_all_projects false (some "1")⟩ =
      ⟨Except.ok (["ID", "Status", "Name"],
         [[Value.vstr "gid-1", Value.vstr "available", Value.vstr "grp"]]),
       [Call.listGroups [("all_tenants", true)]]⟩ := by
  have h := claim_C8_list_all_tenants_and_3_columns (sampleClient ⟨3, 13⟩)
    false (some "1") [sampleGroup] rfl rfl
  have h2 := h.1
  rw [h2]
  rfl

theorem zip_map_self_snd {α β : Type} (f : α → β) :
    ∀ (l : List α) (p : α × β), p ∈ l.zip (l.map f) → p.2 = f p.1 := by
  intro l
  induction l with
  | nil =>
    intro p hp
    simp at hp
  | cons a l ih =>
    intro p hp
    simp only [List.map_cons, List.zip_cons_cons, List.mem_cons] at hp
    rcases hp with hp | hp
    · rw [hp]
    · exact ih p hp

/-- C9: the formatter returns the fixed 11 headers in order, an 11-value row
in the matching column order; a column whose attribute is missing on the
source object renders as the empty-string placeholder (the formatter is total,
so never an error), and the list-typed `volume_types` and `volumes` attributes
pass through unflattened at their column positions (5 and 8). -/
theorem claim_C9_format_group_projection (g : VolumeGroup) (v : Value) :
    (_format_group g).1 =
      ["ID", "Status", "Name", "Description", "Group Type", "Volume Types",
       "Availability Zone", "Created At", "Volumes", "Group Snapshot ID",
       "Source Group ID"] ∧
    (_format_group g).2.length = 11 ∧
    (∀ p ∈ format_group_columns.zip (_format_group g).2,
      g.attrs.lookup p.1 = none → p.2 = Value.vstr "") ∧
    (g.attrs.lookup "volume_types" = some v →
      (_format_group g).2.get? 5 = some v) ∧
    (g.attrs.lookup "volumes" = some v →
      (_format_group g).2.get? 8 = some v) := by
  refine ⟨rfl, ?_, ?_, ?_, ?_⟩
  · simp [_format_group, get_item_properties, format_group_columns]
  · intro p hp hnone
    have hmap : (_format_group g).2 =
        format_group_columns.map
          (fun c => (g.getattr c).getD (Value.vstr "")) := rfl
    rw [hmap] at hp
    have h2 := zip_map_self_snd
      (fun c => (g.getattr c).getD (Value.vstr "")) format_group_columns p hp
    rw [h2]
    simp [VolumeGroup.getattr, hnone]
  · intro h
    have h5 : (_format_group g).2.get? 5 =
        some ((g.attrs.lookup "volume_types").getD (Value.vstr "")) := rfl
    rw [h5, h]
    rfl
  · intro h
    have h8 : (_format_group g).2.get? 8 =
        some ((g.attrs.lookup "volumes").getD (Value.vstr "")) := rfl
    rw [h8, h]
    rfl

/-- C9 witness: on a concrete object missing `description` and carrying a
list-valued `volume_types`, the formatter renders the missing column as the
empty placeholder and passes the list through unflattened. -/
theorem claim_C9_witness :
    (_format_group ⟨[("id", Value.vstr "g"),
        ("volume_types", Value.vlist [Value.vstr "vt1-id"])]⟩).2.get? 5 =
      some (Value.vlist [Value.vstr "vt1-id"]) ∧
    ("description", Value.vstr "") ∈
      format_group_columns.zip
        (_format_group ⟨[("id", Value.vstr "g"),
          ("volume_types", Value.vlist [Value.vstr "vt1-id"])]⟩).2 ∧
    (_format_group ⟨[("id", Value.vstr "g"),
        ("volume_types", Value.vlist [Value.vstr "vt1-id"])]⟩).2.get? 3 =
      some (Value.vstr "") := by
  have h := claim_C9_format_group_projection
    ⟨[("id", Value.vstr "g"),
      ("volume_types", Value.vlist [Value.vstr "vt1-id"])]⟩
    (Value.vlist [Value.vstr "vt1-id"])
  have hmem : ("description", Value.vstr "") ∈
      format_group_columns.zip
        (_format_group ⟨[("id", Value.vstr "g"),
          ("volume_types", Value.vlist [Value.vstr "vt1-id"])]⟩).2 :=
    @List.get?_mem _ _ 3 _ rfl
  have hdesc := h.2.2.1 ("description", Value.vstr "") hmem rfl
  exact ⟨h.2.2.2.1 rfl, hmem, rfl⟩

/-- C10: with a replication flag explicitly given at a version at or above
3.13 but below 3.38, set issues the group resolution call to the Remote
Client and only then raises the 3.38 `CommandError` (one remote reading call
is traced despite the failure); by contrast, show performs both its flag
version checks (3.25 for `--(no-)volumes`, 3.38 for
`--(no-)replication-targets`) before any remote call, so its version failures
leave an empty trace. -/
theorem claim_C10_set_resolves_before_gate_show_does_not
    (client : VolumeClient) (sargs : SetArgs) (shargs : ShowArgs)
    (g : VolumeGroup) (b b2 : Bool)
    (hv13 : APIVersion.lt client.api_version ⟨3, 13⟩ = false)
    (hv38 : APIVersion.lt client.api_version ⟨3, 38⟩ = true) :
    (sargs.enable_replication = some b →
      client.groups_find sargs.group = Except.ok g →
      SetVolumeGroup.take_action client sargs =
        ⟨Except.error (Err.commandError
           ("--os-volume-api-version 3.38 or greater is " ++
            "required to support the \x27--enable-replication\x27 or " ++
            "\x27--disable-replication\x27 options")),
         [Call.findResource "groups" sargs.group]⟩) ∧
    (shargs.show_replication_targets = some b →
      (shargs.show_volumes = none ∨
        APIVersion.lt client.api_version ⟨3, 25⟩ = false) →
      ShowVolumeGroup.take_action client shargs =
        ⟨Except.error (Err.commandError
           ("--os-volume-api-version 3.38 or greater is " ++
            "required to support the " ++
            "\x27--(no-)replication-targets\x27 option")),
         []⟩) ∧
    (shargs.show_volumes = some b2 →
      APIVersion.lt client.api_version ⟨3, 25⟩ = true →
      ShowVolumeGroup.take_action client shargs =
        ⟨Except.error (Err.commandError
           ("--os-volume-api-version 3.25 or greater is " ++
            "required to support the \x27--(no-)volumes\x27 option")),
         []⟩) := by
  refine ⟨?_, ?_, ?_⟩
  · intro hflag hfind
    simp [SetVolumeGroup.take_action, hv13, hflag, hfind, find_resource,
      remoteCall, Outcome.bind, hv38, commandError]
  · intro hsrt hvol
    rcases hvol with hvnone | h25false
    · simp [ShowVolumeGroup.take_action, hv13, hvnone, hsrt, hv38,
        Outcome.bind, Outcome.pure, commandError]
    · cases hsv : shargs.show_volumes <;>
        simp [ShowVolumeGroup.take_action, hv13, hsv, h25false, hsrt, hv38,
          Outcome.bind, Outcome.pure, commandError]
  · intro hsv h25
    simp [ShowVolumeGroup.take_action, hv13, hsv, h25, Outcome.bind,
      Outcome.pure, commandError]

/-- C10 witness: concretely at version 3.20, `set --enable-replication` fails
with the 3.38 error after exactly one traced resolution call, while
`show --replication-targets` and `show --volumes` fail with their flag errors
with an empty trace. -/
theorem claim_C10_witness :
    (SetVolumeGroup.take_action (sampleClient ⟨3, 20⟩)
        ⟨"grp", none, none, some true⟩).trace =
      [Call.findResource "groups" "grp"] ∧
    (ShowVolumeGroup.take_action (sampleClient ⟨3, 20⟩)
        ⟨"grp", none, some true⟩).trace = [] ∧
    (ShowVolumeGroup.take_action (sampleClient ⟨3, 20⟩)
        ⟨"grp", some true, some true⟩).trace = [] := by
  have h1 := claim_C10_set_resolves_before_gate_show_does_not
    (sampleClient ⟨3, 20⟩) ⟨"grp", none, none, some true⟩
    ⟨"grp", none, some true⟩ sampleGroup true true rfl rfl
  have h2 := claim_C10_set_resolves_before_gate_show_does_not
    (sampleClient ⟨3, 20⟩) ⟨"grp", none, none, some true⟩
    ⟨"grp", some true, some true⟩ sampleGroup true true rfl rfl
  refine ⟨?_, ?_, ?_⟩
  · rw [h1.1 rfl rfl]
  · rw [h1.2.1 rfl (Or.inl rfl)]
  · rw [h2.2.2 rfl rfl]
